import Mathlib

/-!
Shallow embedding of `src/telegram_bridge/agent.py` (class `IIAgentClient`).

The Python client drives a WebSocket session: `connect` opens the socket,
waits for a `CONNECTION_ESTABLISHED` event, then `_initialize_agent` sends an
`init_agent` message and loops until `AGENT_INITIALIZED` or `ERROR`;
`send_message` lazily connects, sends a `query` message and collects
`agent_response` fragments until `STREAM_COMPLETE` or `ERROR`, under a single
overall timeout wrapping the whole receive loop.

The embedding makes the effects explicit:
* the inbound wire is a list of `(delay, event)` pairs — `delay` is the time
  in seconds the `recv` call waits for that event (only the exchange loop of
  `send_message` runs under a timeout, so `connect` ignores the delays);
* outbound messages (`websocket.send`) are returned as a trace of `OutMsg`;
* `logger.debug`/`warning`/`error` calls are returned as a trace of strings;
* Python exceptions become the `PyErr` summand of an `Outcome`;
* a `recv` on an exhausted stream with no timeout in force blocks forever,
  which the embedding reports as `Outcome.hang`.
-/

/-- The decoded `content` payload of an inbound event: exactly the keys that
`agent.py` ever reads.  A field is `none` when the key is absent from the
JSON object (so `content.get(k, d)` is `Option.getD` and `"k" in content`
is `Option.isSome`). -/
structure Content where
  delta : Option String := none
  text : Option String := none
  message : Option String := none
  tool_name : Option String := none
  is_error : Option Bool := none
  output : Option String := none
  workspace_path : Option String := none
deriving DecidableEq

/-- One decoded inbound wire event.  `etype` models the `"type"` key and
`econtent` the `"content"` key; `none` means the key is missing from the
decoded object, in which case a Python subscript access `event["type"]` /
`event["content"]` raises `KeyError`. -/
structure InEvent where
  etype : Option String := none
  econtent : Option Content := none
deriving DecidableEq

/-- The Python exceptions that `agent.py` can raise or wrap.
`connectionErrorFrom m c` is `raise ConnectionError(m) from c` (a wrapper
carrying its original cause); `connectionError m` is a plain
`ConnectionError(m)` with no cause. -/
inductive PyErr where
  | keyError (key : String)
  | runtimeError (msg : String)
  | attributeError (msg : String)
  | timeoutError
  | connectionError (msg : String)
  | connectionErrorFrom (msg : String) (cause : PyErr)
deriving DecidableEq

/-- Rendering of `str(e)` for the exceptions above, as interpolated into f-strings. -/
def pyErrMsg : PyErr → String
  | .keyError k => k
  | .runtimeError m => m
  | .attributeError m => m
  | .timeoutError => "TimeoutError"
  | .connectionError m => m
  | .connectionErrorFrom m _ => m

/-- Result of running a piece of the client: a normal value, a raised
exception, or blocking forever on `recv` (no event left and no timeout in
force). -/
inductive Outcome (α : Type) where
  | ok (val : α)
  | err (e : PyErr)
  | hang
deriving DecidableEq

/-- The mutable fields of `IIAgentClient` that the protocol logic touches:
`model_name` (configuration), `websocket` (`true` iff `self.websocket` is
not `None`), `connected` (`self._connected`) and `inited`
(`self._initialized`). -/
structure ClientState where
  model_name : String
  websocket : Bool
  connected : Bool
  inited : Bool
deriving DecidableEq

/-- An outbound wire message (the dictionary passed to `json.dumps` and
`websocket.send`), with every field of the Python literal kept. -/
inductive OutMsg where
  | initAgentMsg (model_name : String) (tool_args : List (String × String)) (thinking_tokens : Nat)
  | queryMsg (text : String) (resume : Bool) (files : List String)
deriving DecidableEq

/-- A timed inbound stream: each event is paired with the number of seconds
the pending `recv` waits before the event arrives. -/
abbrev Wire := List (Nat × InEvent)

/-- Result record threading all observable effects of one client call. -/
structure Res (α : Type) where
  out : Outcome α
  st : ClientState
  sent : List OutMsg
  logs : List String
  rest : Wire
  connectCalls : Nat
deriving DecidableEq

/-- The receive loop of `IIAgentClient._initialize_agent` (agent.py lines
91-101): read events until `AGENT_INITIALIZED` (set `_initialized`, return)
or `ERROR` (raise `RuntimeError` with the backend message, default
"Unknown error"); every other event type falls through and the loop
continues.  `event["type"]` is read on every event, `event["content"]` only
in the `ERROR` branch. -/
def initLoop (st : ClientState) : Wire → Outcome Unit × ClientState × Wire
  | [] => (.hang, st, [])
  | (_, ev) :: rest =>
    match ev.etype with
    | none => (.err (.keyError "type"), st, rest)
    | some t =>
      if t = "AGENT_INITIALIZED" then
        (.ok (), { st with inited := true }, rest)
      else if t = "ERROR" then
        match ev.econtent with
        | none => (.err (.keyError "content"), st, rest)
        | some c =>
          (.err (.runtimeError ("Agent initialization failed: " ++ c.message.getD "Unknown error")),
           st, rest)
      else
        initLoop st rest

/-- Embedding of `IIAgentClient._initialize_agent` (agent.py lines 72-101): send the
`init_agent` message with the configured model, empty tool arguments and
zero thinking tokens, then run `initLoop`.  A `send` on a missing socket
handle would raise `AttributeError`. -/
def initAgent (st : ClientState) (events : Wire) : Res Unit :=
  if st.websocket = false then
    { out := .err (.attributeError "send"), st := st, sent := [], logs := [],
      rest := events, connectCalls := 0 }
  else
    let r := initLoop st events
    { out := r.1, st := r.2.1,
      sent := [.initAgentMsg st.model_name [] 0],
      logs := ["Initializing agent with model: " ++ st.model_name] ++
        (match r.1 with
         | .ok _ => ["Agent initialized successfully"]
         | _ => []),
      rest := r.2.2, connectCalls := 0 }

/-- The `except` clause of `connect` (agent.py lines 65-70): log the failure,
close and discard the partially-opened socket, and re-raise a single
`ConnectionError` wrapper carrying the original exception as its cause.
Note that `self._connected` is NOT reset here. -/
def connectFailRes (st : ClientState) (sent : List OutMsg) (logs : List String)
    (rest : Wire) (e : PyErr) : Res Unit :=
  { out := .err (.connectionErrorFrom ("Failed to connect to ii-agent: " ++ pyErrMsg e) e),
    st := { st with websocket := false },
    sent := sent,
    logs := logs ++ ["Failed to connect to ii-agent: " ++ pyErrMsg e],
    rest := rest, connectCalls := 1 }

/-- Embedding of `IIAgentClient.connect` (agent.py lines 39-70): an immediate no-op when
`self._connected` is already set (the flag `_initialized` is NOT consulted);
otherwise open the socket, read exactly one event, require type
`CONNECTION_ESTABLISHED` (the success log also reads `event["content"]`),
mark connected, and run agent initialization.  Every exception inside the
`try` is routed through `connectFailRes`. -/
def connect (st : ClientState) (events : Wire) : Res Unit :=
  if st.connected then
    { out := .ok (), st := st, sent := [], logs := [], rest := events, connectCalls := 1 }
  else
    let st1 := { st with websocket := true }
    match events with
    | [] =>
      { out := .hang, st := st1, sent := [],
        logs := ["WebSocket connection established"], rest := [], connectCalls := 1 }
    | (_, ev) :: rest =>
      let logs0 := ["WebSocket connection established"]
      match ev.etype with
      | none => connectFailRes st1 [] logs0 rest (.keyError "type")
      | some t =>
        if t ≠ "CONNECTION_ESTABLISHED" then
          connectFailRes st1 [] logs0 rest (.connectionError ("Unexpected event type: " ++ t))
        else
          match ev.econtent with
          | none => connectFailRes st1 [] logs0 rest (.keyError "content")
          | some c =>
            let logs1 := logs0 ++ ["Connected to workspace: " ++ c.workspace_path.getD "None"]
            let st2 := { st1 with connected := true }
            let r := initAgent st2 rest
            match r.out with
            | .ok _ =>
              { out := .ok (), st := r.st, sent := r.sent, logs := logs1 ++ r.logs,
                rest := r.rest, connectCalls := 1 }
            | .err e => connectFailRes r.st r.sent (logs1 ++ r.logs) r.rest e
            | .hang =>
              { out := .hang, st := r.st, sent := r.sent, logs := logs1 ++ r.logs,
                rest := r.rest, connectCalls := 1 }

/-- The accumulator update of the `agent_response` branch (agent.py lines
145-150): use `content["delta"]` when the key is present, else
`content["text"]` when present, else contribute nothing. -/
def respText (c : Content) : String :=
  match c.delta with
  | some s => s
  | none =>
    match c.text with
    | some s => s
    | none => ""

/-- The receive loop of `send_message` (agent.py lines 138-170), run under
`asyncio.timeout tmo`: the deadline is `tmo` seconds after entering the
loop, so an event is received only while the cumulative wait `elapsed + d`
has not passed the deadline; once it would pass (or the stream is exhausted
and the wait is unbounded) the pending `recv` is cancelled and
`asyncio.TimeoutError` is raised.  On each event, `event["type"]` and
`event["content"]` are read unconditionally, then the type is dispatched:
`agent_response` accumulates, `tool_use` and `tool_result` only log,
`STREAM_COMPLETE` returns the accumulator, `ERROR` raises `RuntimeError`,
and any other type falls through to the next iteration.
Returns (outcome, logs, remaining stream). -/
def recvLoop (tmo : Nat) : Nat → String → Wire → Outcome String × List String × Wire
  | _, _, [] => (.err .timeoutError, [], [])
  | elapsed, acc, (d, ev) :: rest =>
    if tmo < elapsed + d then
      (.err .timeoutError, [], (d, ev) :: rest)
    else
      match ev.etype with
      | none => (.err (.keyError "type"), [], rest)
      | some ty =>
        match ev.econtent with
        | none => (.err (.keyError "content"), [], rest)
        | some c =>
          if ty = "agent_response" then
            recvLoop tmo (elapsed + d) (acc ++ respText c) rest
          else if ty = "tool_use" then
            let r := recvLoop tmo (elapsed + d) acc rest
            (r.1, ("Agent using tool: " ++ c.tool_name.getD "unknown") :: r.2.1, r.2.2)
          else if ty = "tool_result" then
            let r := recvLoop tmo (elapsed + d) acc rest
            (r.1,
             (if c.is_error.getD false then
                ["Tool error: " ++ (c.output.getD "").take 200]
              else []) ++ r.2.1,
             r.2.2)
          else if ty = "STREAM_COMPLETE" then
            (.ok acc, ["Received complete response: " ++ toString acc.length ++ " chars"], rest)
          else if ty = "ERROR" then
            (.err (.runtimeError ("Agent error: " ++ c.message.getD "Unknown error")), [], rest)
          else
            recvLoop tmo (elapsed + d) acc rest

/-- The tail of `send_message` after the lazy-connect check (agent.py lines
121-174): log the session correlation line, send the `query` message
(`AttributeError` if the socket handle is `None`), then run `recvLoop` with
an empty accumulator; an `asyncio.TimeoutError` is logged and re-raised. -/
def sendQuery (st : ClientState) (message session_id : String) (tmo : Nat)
    (events : Wire) : Res String :=
  let logSend := "Sending message to ii-agent for session " ++ session_id
  if st.websocket = false then
    { out := .err (.attributeError "send"), st := st, sent := [], logs := [logSend],
      rest := events, connectCalls := 0 }
  else
    let r := recvLoop tmo 0 "" events
    { out := r.1, st := st, sent := [.queryMsg message false []],
      logs := [logSend] ++ r.2.1 ++
        (if r.1 = .err .timeoutError then
          ["Response timeout after " ++ toString tmo ++ " seconds"]
         else []),
      rest := r.2.2, connectCalls := 0 }

/-- Embedding of `IIAgentClient.send_message` (agent.py lines 103-174): when either
`_connected` or `_initialized` is unset, first call `connect` (exactly once)
and propagate its failure; then run the query exchange.  `session_id` is
used only in the correlation log line. -/
def sendMessage (st : ClientState) (message session_id : String) (tmo : Nat)
    (events : Wire) : Res String :=
  if !st.connected || !st.inited then
    let r := connect st events
    match r.out with
    | .ok _ =>
      let q := sendQuery r.st message session_id tmo r.rest
      { out := q.out, st := q.st, sent := r.sent ++ q.sent, logs := r.logs ++ q.logs,
        rest := q.rest, connectCalls := r.connectCalls }
    | .err e =>
      { out := .err e, st := r.st, sent := r.sent, logs := r.logs, rest := r.rest,
        connectCalls := r.connectCalls }
    | .hang =>
      { out := .hang, st := r.st, sent := r.sent, logs := r.logs, rest := r.rest,
        connectCalls := r.connectCalls }
  else
    sendQuery st message session_id tmo events

/-- Embedding of `IIAgentClient.close` (agent.py lines 176-183): when a socket handle
exists, close it, discard it and reset both flags; otherwise a no-op. -/
def closeClient (st : ClientState) : ClientState :=
  if st.websocket then
    { st with websocket := false, connected := false, inited := false }
  else
    st

/-- Spec-side terminal test: an event type that ends the collection loop. -/
def isTerminal (ev : InEvent) : Bool :=
  ev.etype = some "STREAM_COMPLETE" || ev.etype = some "ERROR"

/-- Spec-side well-formedness: the decoded object has both a `type` and a
`content` key. -/
def wellFormed (ev : InEvent) : Bool :=
  ev.etype.isSome && ev.econtent.isSome

/-- Spec-side contribution of one event to the accumulated reply, written
from the spec text: an `agent_response` contributes `content.delta` when
present, else `content.text` when present, else nothing; every other event
type contributes nothing. -/
def contribOf (ev : InEvent) : String :=
  if ev.etype = some "agent_response" then
    match ev.econtent with
    | some c =>
      match c.delta with
      | some s => s
      | none => c.text.getD ""
    | none => ""
  else ""

/-- Spec-side accumulated reply over a timed prefix, in arrival order,
threaded through an explicit accumulator. -/
def collectFrom (acc : String) : Wire → String
  | [] => acc
  | p :: rest => collectFrom (acc ++ contribOf p.2) rest

/-- Total wait time of a timed prefix. -/
def delaySum : Wire → Nat
  | [] => 0
  | p :: rest => p.1 + delaySum rest

/-! ### Fixtures for concrete runs (used by witnesses) -/

/-- A streamed reply fragment event. -/
def evDelta (s : String) : InEvent := { etype := some "agent_response", econtent := some { delta := some s } }

/-- A full-text reply event. -/
def evText (s : String) : InEvent := { etype := some "agent_response", econtent := some { text := some s } }

/-- The terminal success event of an exchange. -/
def evComplete : InEvent := { etype := some "STREAM_COMPLETE", econtent := some {} }

/-- The terminal failure event, carrying a backend message. -/
def evFailure (s : String) : InEvent := { etype := some "ERROR", econtent := some { message := some s } }

/-- The handshake acknowledgement event. -/
def evEstablished : InEvent :=
  { etype := some "CONNECTION_ESTABLISHED", econtent := some { workspace_path := some "/workspace/test" } }

/-- The agent-initialization acknowledgement event. -/
def evInited : InEvent := { etype := some "AGENT_INITIALIZED", econtent := some {} }

/-- An informational tool-use event. -/
def evToolUse : InEvent := { etype := some "tool_use", econtent := some { tool_name := some "bash" } }

/-- An informational tool-result event. -/
def evToolResult : InEvent :=
  { etype := some "tool_result", econtent := some { output := some "Result", is_error := some false } }

/-- A session that is fully established. -/
def readyState : ClientState := { model_name := "m", websocket := true, connected := true, inited := true }

/-- A freshly constructed client. -/
def freshState : ClientState := { model_name := "m", websocket := false, connected := false, inited := false }

/-- A valid two-event connect handshake. -/
def handshakeWire : Wire := [(0, evEstablished), (0, evInited)]

/-- A connect handshake whose first event has an unexpected type. -/
def unexpectedWire : Wire := [(0, { etype := some "UNEXPECTED", econtent := some {} })]

/-- The wrapped error `connect` produces on `unexpectedWire`. -/
def unexpectedErr : PyErr :=
  .connectionErrorFrom "Failed to connect to ii-agent: Unexpected event type: UNEXPECTED"
    (.connectionError "Unexpected event type: UNEXPECTED")



/-! ### Structural lemmas about initialization and connect -/

/-- The initialization loop either leaves the state alone or only sets the
`inited` flag. -/
theorem initLoop_state (st : ClientState) :
    ∀ evs : Wire, (initLoop st evs).2.1 = st ∨ (initLoop st evs).2.1 = { st with inited := true } := by
  intro evs
  induction evs with
  | nil => exact Or.inl rfl
  | cons p rest ih =>
    obtain ⟨d, ev⟩ := p
    simp only [initLoop]
    split
    · exact Or.inl rfl
    · split
      · exact Or.inr rfl
      · split
        · split
          · exact Or.inl rfl
          · exact Or.inl rfl
        · exact ih

/-- A normal return of the initialization loop has set the `inited` flag. -/
theorem initLoop_ok_inited (st : ClientState) :
    ∀ evs : Wire, (initLoop st evs).1 = .ok () → (initLoop st evs).2.1.inited = true := by
  intro evs
  induction evs with
  | nil => intro h; simp [initLoop] at h
  | cons p rest ih =>
    obtain ⟨d, ev⟩ := p
    simp only [initLoop]
    split
    · intro h; simp at h
    · split
      · intro _; rfl
      · split
        · split
          · intro h; simp at h
          · intro h; simp at h
        · exact ih

/-- A normal return of `_initialize_agent` has set `inited` and has touched
neither `connected` nor `websocket`. -/
theorem initAgent_ok (st : ClientState) (evs : Wire) (h : (initAgent st evs).out = .ok ()) :
    (initAgent st evs).st.inited = true ∧ (initAgent st evs).st.connected = st.connected ∧
      (initAgent st evs).st.websocket = st.websocket := by
  by_cases hw : st.websocket = false
  · simp only [initAgent, if_pos hw] at h
    simp at h
  · simp only [initAgent, if_neg hw] at h ⊢
    refine ⟨initLoop_ok_inited st evs h, ?_, ?_⟩ <;>
      rcases initLoop_state st evs with h' | h' <;> rw [h']

/-- Helper: `connect` is a no-op whenever `_connected` is already set (regardless of
`_initialized`). -/
theorem connect_noop (st : ClientState) (evs : Wire) (h : st.connected = true) :
    connect st evs =
      { out := .ok (), st := st, sent := [], logs := [], rest := evs, connectCalls := 1 } := by
  simp [connect, h]

/-- C6: every exception propagating out of `connect` is the single
`ConnectionError` wrapper carrying the original exception as its cause, and
the partially-opened socket handle has been closed and reset before the
error propagates. -/
theorem connect_err_shape (st : ClientState) (evs : Wire) (e : PyErr)
    (h : (connect st evs).out = .err e) :
    (∃ c, e = .connectionErrorFrom ("Failed to connect to ii-agent: " ++ pyErrMsg c) c) ∧
      (connect st evs).st.websocket = false := by
  obtain ⟨mn, w, conn, ini⟩ := st
  cases conn with
  | true => simp [connect] at h
  | false =>
    cases evs with
    | nil => simp [connect] at h
    | cons p rest =>
      obtain ⟨d, ev⟩ := p
      obtain ⟨ety, econt⟩ := ev
      cases ety with
      | none =>
        simp [connect, connectFailRes] at h ⊢
        exact ⟨_, h.symm⟩
      | some t =>
        by_cases ht : t = "CONNECTION_ESTABLISHED"
        · subst ht
          cases econt with
          | none =>
            simp [connect, connectFailRes] at h ⊢
            exact ⟨_, h.symm⟩
          | some c =>
            simp only [connect] at h ⊢
            revert h
            rcases hr : (initAgent ⟨mn, true, true, ini⟩ rest).out with v | e2 | _ <;> intro h <;>
              simp [hr, connectFailRes] at h ⊢
            exact ⟨_, h.symm⟩
        · simp [connect, connectFailRes, ht] at h ⊢
          exact ⟨_, h.symm⟩

/-- A `connect` run from a disconnected state that returns normally leaves
the session fully established: socket handle present, both flags set. -/
theorem connect_ok_full (st : ClientState) (evs : Wire) (hc : st.connected = false)
    (h : (connect st evs).out = .ok ()) :
    (connect st evs).st.connected = true ∧ (connect st evs).st.inited = true ∧
      (connect st evs).st.websocket = true := by
  obtain ⟨mn, w, conn, ini⟩ := st
  cases conn with
  | true => simp at hc
  | false =>
    cases evs with
    | nil => simp [connect] at h
    | cons p rest =>
      obtain ⟨d, ev⟩ := p
      obtain ⟨ety, econt⟩ := ev
      cases ety with
      | none => simp [connect, connectFailRes] at h
      | some t =>
        by_cases ht : t = "CONNECTION_ESTABLISHED"
        · subst ht
          cases econt with
          | none => simp [connect, connectFailRes] at h
          | some c =>
            simp only [connect] at h ⊢
            revert h
            rcases hr : (initAgent ⟨mn, true, true, ini⟩ rest).out with v | e2 | _ <;> intro h <;>
              simp [hr, connectFailRes] at h ⊢
            have := initAgent_ok ⟨mn, true, true, ini⟩ rest (by rw [hr])
            exact ⟨this.2.1, this.1, this.2.2⟩
        · simp [connect, connectFailRes, ht] at h

/-- A successful `connect` always leaves `_connected` set. -/
theorem connect_ok_connected (st : ClientState) (evs : Wire)
    (h : (connect st evs).out = .ok ()) : (connect st evs).st.connected = true := by
  by_cases hc : st.connected = true
  · rw [connect_noop st evs hc]; exact hc
  · exact (connect_ok_full st evs (by simpa using hc) h).1

/-! ### Claims about the transport session (C3, C7, C8) -/

/-- C3: `connect()` is idempotent: when the session is already connected and
initialized, a further call performs no network operation (nothing sent,
nothing received) and leaves the connection handle and both flags unchanged;
and after any successful `connect()`, a second call is such a no-op, so two
successive calls perform the network handshake at most once. -/
theorem connect_idempotent :
    (∀ (st : ClientState) (evs : Wire), st.connected = true → st.inited = true →
      connect st evs =
        { out := .ok (), st := st, sent := [], logs := [], rest := evs, connectCalls := 1 }) ∧
    (∀ (st : ClientState) (evs : Wire), (connect st evs).out = .ok () →
      connect (connect st evs).st (connect st evs).rest =
        { out := .ok (), st := (connect st evs).st, sent := [], logs := [],
          rest := (connect st evs).rest, connectCalls := 1 }) :=
  ⟨fun st evs h _ => connect_noop st evs h,
   fun st evs h => connect_noop _ _ (connect_ok_connected st evs h)⟩

/-- Witness for C3: a ready session is untouched by `connect`, and a second
call after a successful fresh handshake is a no-op. -/
theorem connect_idempotent_witness :
    connect readyState [] =
      { out := .ok (), st := readyState, sent := [], logs := [], rest := [], connectCalls := 1 } ∧
    connect (connect freshState handshakeWire).st (connect freshState handshakeWire).rest =
      { out := .ok (), st := (connect freshState handshakeWire).st, sent := [], logs := [],
        rest := (connect freshState handshakeWire).rest, connectCalls := 1 } :=
  ⟨connect_idempotent.1 readyState [] rfl rfl,
   connect_idempotent.2 freshState handshakeWire (by decide)⟩

/-- Witness for C6: the handshake rejection on an unexpected first event
propagates as the wrapped `ConnectionError` with the socket discarded. -/
theorem connect_err_shape_witness :
    (∃ c, unexpectedErr = .connectionErrorFrom ("Failed to connect to ii-agent: " ++ pyErrMsg c) c) ∧
      (connect freshState unexpectedWire).st.websocket = false :=
  connect_err_shape freshState unexpectedWire unexpectedErr (by decide)

/-- C7: during the initialization step, an event whose type is neither
`AGENT_INITIALIZED` nor `ERROR` is ignored and the loop continues; the first
`AGENT_INITIALIZED` marks the session initialized and returns; the first
`ERROR` fails with the `RuntimeError` initialization-failure kind carrying
the backend-supplied `content.message`; and `_initialize_agent` propagates
the loop's outcome unchanged. -/
theorem initLoop_behavior :
    (∀ (st : ClientState) (d : Nat) (ev : InEvent) (rest : Wire) (ty : String),
      ev.etype = some ty → ty ≠ "AGENT_INITIALIZED" → ty ≠ "ERROR" →
      initLoop st ((d, ev) :: rest) = initLoop st rest) ∧
    (∀ (st : ClientState) (d : Nat) (ev : InEvent) (rest : Wire),
      ev.etype = some "AGENT_INITIALIZED" →
      initLoop st ((d, ev) :: rest) = (.ok (), { st with inited := true }, rest)) ∧
    (∀ (st : ClientState) (d : Nat) (ev : InEvent) (rest : Wire) (c : Content),
      ev.etype = some "ERROR" → ev.econtent = some c →
      initLoop st ((d, ev) :: rest) =
        (.err (.runtimeError ("Agent initialization failed: " ++ c.message.getD "Unknown error")),
         st, rest)) ∧
    (∀ (st : ClientState) (evs : Wire), st.websocket = true →
      (initAgent st evs).out = (initLoop st evs).1) := by
  refine ⟨?_, ?_, ?_, ?_⟩
  · intro st d ev rest ty hty h1 h2
    simp [initLoop, hty, h1, h2]
  · intro st d ev rest hty
    simp [initLoop, hty]
  · intro st d ev rest c hty hc
    simp [initLoop, hty, hc]
  · intro st evs hw
    simp [initAgent, hw]

/-- Witness for C7: a `tool_use` event is skipped, then `AGENT_INITIALIZED`
completes initialization; an immediate `ERROR` fails it; `_initialize_agent`
propagates the outcome. -/
theorem initLoop_behavior_witness :
    initLoop freshState ((0, evToolUse) :: [(0, evInited)]) = initLoop freshState [(0, evInited)] ∧
    initLoop freshState ((0, evInited) :: []) = (.ok (), { freshState with inited := true }, []) ∧
    initLoop freshState ((0, evFailure "Init failed") :: []) =
      (.err (.runtimeError ("Agent initialization failed: " ++
        (Option.some "Init failed").getD "Unknown error")), freshState, []) ∧
    (initAgent readyState []).out = (initLoop readyState []).1 :=
  ⟨initLoop_behavior.1 freshState 0 evToolUse [(0, evInited)] "tool_use" rfl (by decide) (by decide),
   initLoop_behavior.2.1 freshState 0 evInited [] rfl,
   initLoop_behavior.2.2.1 freshState 0 (evFailure "Init failed") [] { message := some "Init failed" } rfl rfl,
   initLoop_behavior.2.2.2 readyState [] rfl⟩

/-- C8: when the first inbound event of the handshake has a type other than
`CONNECTION_ESTABLISHED`, `connect` fails with a connection-error kind and
leaves `connected = false`. -/
theorem connect_unexpected_first (st : ClientState) (d : Nat) (ev : InEvent)
    (rest : Wire) (ty : String) (hc : st.connected = false)
    (hty : ev.etype = some ty) (hne : ty ≠ "CONNECTION_ESTABLISHED") :
    (connect st ((d, ev) :: rest)).out =
      .err (.connectionErrorFrom
        ("Failed to connect to ii-agent: " ++ ("Unexpected event type: " ++ ty))
        (.connectionError ("Unexpected event type: " ++ ty))) ∧
    (connect st ((d, ev) :: rest)).st.connected = false := by
  simp [connect, hc, hty, hne, connectFailRes, pyErrMsg]

/-- Witness for C8: the `type: UNEXPECTED` handshake of the spec's test. -/
theorem connect_unexpected_first_witness :
    (connect freshState ((0, { etype := some "UNEXPECTED", econtent := some {} }) :: [])).out =
      .err (.connectionErrorFrom
        ("Failed to connect to ii-agent: " ++ ("Unexpected event type: " ++ "UNEXPECTED"))
        (.connectionError ("Unexpected event type: " ++ "UNEXPECTED"))) ∧
    (connect freshState ((0, { etype := some "UNEXPECTED", econtent := some {} }) :: [])).st.connected = false :=
  connect_unexpected_first freshState 0 { etype := some "UNEXPECTED", econtent := some {} } []
    "UNEXPECTED" rfl rfl (by decide)


/-! ### Lemmas about the exchange receive loop -/

/-- Helper: `contribOf` on a well-formed `agent_response` event is the accumulator
update the loop performs. -/
theorem contrib_agent (c : Content) :
    contribOf { etype := some "agent_response", econtent := some c } = respText c := by
  cases hcd : c.delta <;> cases hct : c.text <;> simp [contribOf, respText, hcd, hct]

/-- One non-terminal well-formed event received within the deadline advances
the loop: the clock moves by its delay and the accumulator by its
contribution; outcome and remaining stream are unchanged. -/
theorem recvLoop_cons_skip (tmo elapsed : Nat) (acc : String) (d : Nat) (ev : InEvent)
    (tail : Wire) (hwf : wellFormed ev = true) (hterm : isTerminal ev = false)
    (ht : elapsed + d ≤ tmo) :
    (recvLoop tmo elapsed acc ((d, ev) :: tail)).1 =
        (recvLoop tmo (elapsed + d) (acc ++ contribOf ev) tail).1 ∧
      (recvLoop tmo elapsed acc ((d, ev) :: tail)).2.2 =
        (recvLoop tmo (elapsed + d) (acc ++ contribOf ev) tail).2.2 := by
  obtain ⟨ety, econt⟩ := ev
  cases ety with
  | none => simp [wellFormed] at hwf
  | some ty =>
    cases econt with
    | none => simp [wellFormed] at hwf
    | some c =>
      simp only [isTerminal, Bool.or_eq_false_iff, decide_eq_false_iff_not,
        Option.some.injEq] at hterm
      obtain ⟨hsc, herr⟩ := hterm
      have hguard : ¬ tmo < elapsed + d := by omega
      by_cases h1 : ty = "agent_response"
      · subst h1
        cases hcd : c.delta <;> cases hct : c.text <;>
          simp [recvLoop, hguard, contribOf, respText, hcd, hct]
      · by_cases h2 : ty = "tool_use"
        · subst h2
          simp [recvLoop, hguard, contribOf, String.append_empty]
        · by_cases h3 : ty = "tool_result"
          · subst h3
            simp [recvLoop, hguard, contribOf, String.append_empty]
          · simp [recvLoop, hguard, contribOf, h1, h2, h3, hsc, herr, String.append_empty]

/-- Running the loop over a prefix of well-formed non-terminal events that
all arrive within the deadline is the same as starting after the prefix with
the elapsed clock advanced by its total delay and the accumulator holding its
accumulated contributions. -/
theorem recvLoop_skip (tmo : Nat) (rest : Wire) :
    ∀ (pre : Wire) (elapsed : Nat) (acc : String),
      (∀ p ∈ pre, wellFormed p.2 = true ∧ isTerminal p.2 = false) →
      elapsed + delaySum pre ≤ tmo →
      (recvLoop tmo elapsed acc (pre ++ rest)).1 =
          (recvLoop tmo (elapsed + delaySum pre) (collectFrom acc pre) rest).1 ∧
        (recvLoop tmo elapsed acc (pre ++ rest)).2.2 =
          (recvLoop tmo (elapsed + delaySum pre) (collectFrom acc pre) rest).2.2 := by
  intro pre
  induction pre with
  | nil =>
    intro elapsed acc _ _
    simp [delaySum, collectFrom]
  | cons p pre ih =>
    intro elapsed acc hwf htime
    obtain ⟨d, ev⟩ := p
    have hd : elapsed + d ≤ tmo := by
      simp [delaySum] at htime; omega
    have step := recvLoop_cons_skip tmo elapsed acc d ev (pre ++ rest)
      (hwf (d, ev) (List.mem_cons_self _ _)).1 (hwf (d, ev) (List.mem_cons_self _ _)).2 hd
    have tail := ih (elapsed + d) (acc ++ contribOf ev)
      (fun q hq => hwf q (List.mem_cons_of_mem _ hq))
      (by simp [delaySum] at htime ⊢; omega)
    constructor
    · rw [List.cons_append, step.1, tail.1]
      simp [delaySum, collectFrom, Nat.add_assoc]
    · rw [List.cons_append, step.2, tail.2]
      simp [delaySum, collectFrom, Nat.add_assoc]

/-- In a fully established session, `send_message` goes straight to the query
exchange: exactly the query message is sent, the state is untouched and the
outcome is the receive loop's. -/
theorem sendMessage_ready (st : ClientState) (m sid : String) (tmo : Nat) (evs : Wire)
    (hc : st.connected = true) (hi : st.inited = true) (hw : st.websocket = true) :
    (sendMessage st m sid tmo evs).out = (recvLoop tmo 0 "" evs).1 ∧
      (sendMessage st m sid tmo evs).sent = [.queryMsg m false []] ∧
      (sendMessage st m sid tmo evs).st = st := by
  simp [sendMessage, sendQuery, hc, hi, hw]

/-! ### Claims about the message exchange (C1, C4, C5, C10) -/

/-- C1: when the first terminal event of the inbound sequence is
`STREAM_COMPLETE`, `send_message` returns exactly the concatenation, in
arrival order, over the preceding `agent_response` events, of
`content.delta` when present else `content.text` when present else nothing
(`collectFrom`); events of any other type contribute nothing and do not
terminate the collection loop. -/
theorem sendMessage_stream_complete (st : ClientState) (m sid : String) (tmo : Nat)
    (pre post : Wire) (dT : Nat) (evT : InEvent) (cT : Content)
    (hc : st.connected = true) (hi : st.inited = true) (hw : st.websocket = true)
    (hpre : ∀ p ∈ pre, wellFormed p.2 = true ∧ isTerminal p.2 = false)
    (hT : evT.etype = some "STREAM_COMPLETE") (hTc : evT.econtent = some cT)
    (htime : delaySum pre + dT ≤ tmo) :
    (sendMessage st m sid tmo (pre ++ (dT, evT) :: post)).out = .ok (collectFrom "" pre) := by
  rw [(sendMessage_ready st m sid tmo _ hc hi hw).1]
  rw [(recvLoop_skip tmo ((dT, evT) :: post) pre 0 "" hpre (by omega)).1]
  have hguard : ¬ tmo < delaySum pre + dT := by omega
  simp [recvLoop, hguard, hT, hTc]

/-- Witness for C1: the spec's delta stream with interleaved tool events. -/
theorem sendMessage_stream_complete_witness :
    (sendMessage readyState "Test" "u" 120
      [(0, evDelta "Hello "), (0, evToolUse), (0, evToolResult), (0, evDelta "World"),
       (0, evComplete)]).out = .ok "Hello World" :=
  (sendMessage_stream_complete readyState "Test" "u" 120
      [(0, evDelta "Hello "), (0, evToolUse), (0, evToolResult), (0, evDelta "World")] [] 0
      evComplete {} rfl rfl rfl (by decide) rfl rfl (by decide)).trans (by decide)

/-- C4: when the first terminal event is `ERROR`, `send_message` raises the
`RuntimeError` kind carrying `content.message` (default "Unknown error"),
and no partially accumulated text is returned. -/
theorem sendMessage_error_event (st : ClientState) (m sid : String) (tmo : Nat)
    (pre post : Wire) (dT : Nat) (evT : InEvent) (cT : Content)
    (hc : st.connected = true) (hi : st.inited = true) (hw : st.websocket = true)
    (hpre : ∀ p ∈ pre, wellFormed p.2 = true ∧ isTerminal p.2 = false)
    (hT : evT.etype = some "ERROR") (hTc : evT.econtent = some cT)
    (htime : delaySum pre + dT ≤ tmo) :
    (sendMessage st m sid tmo (pre ++ (dT, evT) :: post)).out =
      .err (.runtimeError ("Agent error: " ++ cT.message.getD "Unknown error")) := by
  rw [(sendMessage_ready st m sid tmo _ hc hi hw).1]
  rw [(recvLoop_skip tmo ((dT, evT) :: post) pre 0 "" hpre (by omega)).1]
  have hguard : ¬ tmo < delaySum pre + dT := by omega
  simp [recvLoop, hguard, hT, hTc]

/-- Witness for C4: a partial delta followed by the backend failure; the
partial text "partial" is dropped and the backend message surfaces. -/
theorem sendMessage_error_event_witness :
    (sendMessage readyState "Test" "u" 120
      [(0, evDelta "partial"), (0, evFailure "Agent failed")]).out =
      .err (.runtimeError "Agent error: Agent failed") :=
  (sendMessage_error_event readyState "Test" "u" 120 [(0, evDelta "partial")] [] 0
      (evFailure "Agent failed") { message := some "Agent failed" }
      rfl rfl rfl (by decide) rfl rfl (by decide)).trans (by decide)

/-- When no event of the stream is a terminal (every event arriving within
the deadline being well formed and non-terminal), the receive loop ends in
the overall timeout. -/
theorem recvLoop_no_terminal (tmo : Nat) :
    ∀ (evs : Wire) (elapsed : Nat) (acc : String),
      (∀ pre d ev post, evs = pre ++ (d, ev) :: post →
        elapsed + (delaySum pre + d) ≤ tmo → wellFormed ev = true ∧ isTerminal ev = false) →
      (recvLoop tmo elapsed acc evs).1 = .err .timeoutError := by
  intro evs
  induction evs with
  | nil => intro _ _ _; simp [recvLoop]
  | cons p rest ih =>
    intro elapsed acc h
    obtain ⟨d, ev⟩ := p
    by_cases hg : tmo < elapsed + d
    · simp [recvLoop, hg]
    · have h0 := h [] d ev rest rfl (by simp [delaySum]; omega)
      have step := recvLoop_cons_skip tmo elapsed acc d ev rest h0.1 h0.2 (by omega)
      rw [step.1]
      refine ih (elapsed + d) (acc ++ contribOf ev) ?_
      intro pre1 d1 ev1 post1 heq ht
      subst heq
      refine h ((d, ev) :: pre1) d1 ev1 post1 rfl ?_
      simp [delaySum] at ht ⊢
      omega

/-- C5: the collection loop is bounded by one overall timeout wrapping the
whole loop: when no terminal event arrives within `tmo` seconds of entering
the loop, `send_message` fails with the timeout kind and returns no partial
text. -/
theorem sendMessage_timeout (st : ClientState) (m sid : String) (tmo : Nat) (evs : Wire)
    (hc : st.connected = true) (hi : st.inited = true) (hw : st.websocket = true)
    (hno : ∀ pre d ev post, evs = pre ++ (d, ev) :: post →
      delaySum pre + d ≤ tmo → wellFormed ev = true ∧ isTerminal ev = false) :
    (sendMessage st m sid tmo evs).out = .err .timeoutError := by
  rw [(sendMessage_ready st m sid tmo evs hc hi hw).1]
  refine recvLoop_no_terminal tmo evs 0 "" ?_
  intro pre d ev post heq ht
  exact hno pre d ev post heq (by omega)

/-- Witness for C5: a stream that never produces any event at all. -/
theorem sendMessage_timeout_witness :
    (sendMessage readyState "Test" "u" 1 []).out = .err .timeoutError :=
  sendMessage_timeout readyState "Test" "u" 1 [] rfl rfl rfl
    (fun pre d ev post heq _ => by simp at heq)

/-- C10: in the collection loop the `type` and `content` keys are read
unconditionally before dispatch: an event missing its `type` key raises the
`KeyError` for "type", and one that has a type (of any value, including
`STREAM_COMPLETE`) but no `content` key raises the `KeyError` for "content";
in both cases the exchange fails instead of the event being ignored. -/
theorem sendMessage_missing_keys (st : ClientState) (m sid : String) (tmo : Nat)
    (pre post : Wire) (d : Nat) (ev : InEvent)
    (hc : st.connected = true) (hi : st.inited = true) (hw : st.websocket = true)
    (hpre : ∀ p ∈ pre, wellFormed p.2 = true ∧ isTerminal p.2 = false)
    (htime : delaySum pre + d ≤ tmo) :
    (ev.etype = none →
      (sendMessage st m sid tmo (pre ++ (d, ev) :: post)).out = .err (.keyError "type")) ∧
    (∀ ty, ev.etype = some ty → ev.econtent = none →
      (sendMessage st m sid tmo (pre ++ (d, ev) :: post)).out = .err (.keyError "content")) := by
  have hguard : ¬ tmo < delaySum pre + d := by omega
  constructor
  · intro hty
    rw [(sendMessage_ready st m sid tmo _ hc hi hw).1]
    rw [(recvLoop_skip tmo ((d, ev) :: post) pre 0 "" hpre (by omega)).1]
    simp [recvLoop, hguard, hty]
  · intro ty hty hco
    rw [(sendMessage_ready st m sid tmo _ hc hi hw).1]
    rw [(recvLoop_skip tmo ((d, ev) :: post) pre 0 "" hpre (by omega)).1]
    simp [recvLoop, hguard, hty, hco]

/-- Witness for C10: an event with no keys at all, and a `STREAM_COMPLETE`
event missing its `content` key. -/
theorem sendMessage_missing_keys_witness :
    (sendMessage readyState "Test" "u" 120 [(0, { etype := none, econtent := none })]).out =
      .err (.keyError "type") ∧
    (sendMessage readyState "Test" "u" 120
      [(0, { etype := some "STREAM_COMPLETE", econtent := none })]).out =
      .err (.keyError "content") :=
  ⟨(sendMessage_missing_keys readyState "Test" "u" 120 [] [] 0
      { etype := none, econtent := none } rfl rfl rfl (by decide) (by decide)).1 rfl,
   (sendMessage_missing_keys readyState "Test" "u" 120 [] [] 0
      { etype := some "STREAM_COMPLETE", econtent := none } rfl rfl rfl (by decide)
      (by decide)).2 "STREAM_COMPLETE" rfl rfl⟩

/-- Every `connect` call counts as exactly one call, whatever its outcome. -/
theorem connect_calls_one (st : ClientState) (evs : Wire) : (connect st evs).connectCalls = 1 := by
  obtain ⟨mn, w, conn, ini⟩ := st
  cases conn with
  | true => simp [connect]
  | false =>
    cases evs with
    | nil => simp [connect]
    | cons p rest =>
      obtain ⟨d, ev⟩ := p
      obtain ⟨ety, econt⟩ := ev
      cases ety with
      | none => simp [connect, connectFailRes]
      | some t =>
        by_cases ht : t = "CONNECTION_ESTABLISHED"
        · subst ht
          cases econt with
          | none => simp [connect, connectFailRes]
          | some c =>
            simp only [connect]
            rcases hr : (initAgent ⟨mn, true, true, ini⟩ rest).out <;>
              simp [hr, connectFailRes]
        · simp [connect, connectFailRes, ht]

/-! ### Claims about lazy connection and session-id independence (C2, C9) -/

/-- C2 counterexample: a failed agent initialization leaves the reachable
state `connected = true`, `inited = false`, socket handle discarded.  From
this state `send_message` performs its single `connect()` call, but that
call is a no-op that does not establish the flags, and no query is ever
sent: the call fails with an `AttributeError` on the missing socket handle.
This falsifies the claim that the `connect()` performed when either flag is
false establishes both flags before the query is sent. -/
theorem sendMessage_lazy_connect_counterexample :
    (connect freshState [(0, evEstablished), (0, evFailure "Init failed")]).st =
      { model_name := "m", websocket := false, connected := true, inited := false } ∧
    (sendMessage { model_name := "m", websocket := false, connected := true, inited := false }
        "hi" "s" 120 [(0, evComplete)]).connectCalls = 1 ∧
    (sendMessage { model_name := "m", websocket := false, connected := true, inited := false }
        "hi" "s" 120 [(0, evComplete)]).st.inited = false ∧
    (sendMessage { model_name := "m", websocket := false, connected := true, inited := false }
        "hi" "s" 120 [(0, evComplete)]).sent = [] ∧
    (sendMessage { model_name := "m", websocket := false, connected := true, inited := false }
        "hi" "s" 120 [(0, evComplete)]).out = .err (.attributeError "send") :=
  ⟨by decide, by decide, by decide, by decide, by decide⟩

/-- C2 (amended): no `connect()` is performed when both flags are already
true, and exactly one when either flag is false.  When the `connected` flag
is false at entry, that `connect()` (if it succeeds) establishes both flags
before the query is sent.  But in the reachable corner state
`connected = true ∧ inited = false` (socket handle gone), the `connect()`
call is a no-op and `send_message` fails with an `AttributeError` without
sending any query — so no query is ever sent in a state where the flags are
not both true. -/
theorem sendMessage_lazy_connect :
    (∀ (st : ClientState) (m sid : String) (tmo : Nat) (evs : Wire),
      st.connected = true → st.inited = true →
      (sendMessage st m sid tmo evs).connectCalls = 0) ∧
    (∀ (st : ClientState) (m sid : String) (tmo : Nat) (evs : Wire),
      st.connected = false ∨ st.inited = false →
      (sendMessage st m sid tmo evs).connectCalls = 1) ∧
    (∀ (st : ClientState) (m sid : String) (tmo : Nat) (evs : Wire),
      st.connected = false → (connect st evs).out = .ok () →
      (connect st evs).st.connected = true ∧ (connect st evs).st.inited = true ∧
      (sendMessage st m sid tmo evs).sent = (connect st evs).sent ++ [OutMsg.queryMsg m false []]) ∧
    (∀ (st : ClientState) (m sid : String) (tmo : Nat) (evs : Wire),
      st.connected = true → st.inited = false → st.websocket = false →
      (sendMessage st m sid tmo evs).out = .err (.attributeError "send") ∧
      (sendMessage st m sid tmo evs).sent = []) := by
  refine ⟨?_, ?_, ?_, ?_⟩
  · intro st m sid tmo evs hc hi
    by_cases hw : st.websocket = false <;> simp [sendMessage, sendQuery, hc, hi, hw]
  · intro st m sid tmo evs hco
    have hcond : (!st.connected || !st.inited) = true := by
      rcases hco with h | h <;> simp [h]
    simp only [sendMessage, if_pos hcond]
    rcases hr : (connect st evs).out <;> simp [hr, connect_calls_one]
  · intro st m sid tmo evs hc hok
    obtain ⟨h1, h2, h3⟩ := connect_ok_full st evs hc hok
    have hcond : (!st.connected || !st.inited) = true := by simp [hc]
    refine ⟨h1, h2, ?_⟩
    simp [sendMessage, hcond, hok, sendQuery, h3]
  · intro st m sid tmo evs hc hi hw
    have hcond : (!st.connected || !st.inited) = true := by simp [hi]
    constructor <;> simp [sendMessage, hcond, connect_noop st evs hc, sendQuery, hw]

/-- Witness for the amended C2: a ready session performs no connect; a fresh
one performs one and then sends the query; the corner state fails without
sending. -/
theorem sendMessage_lazy_connect_witness :
    (sendMessage readyState "T" "s" 120 [(0, evComplete)]).connectCalls = 0 ∧
    (sendMessage freshState "T" "s" 120 handshakeWire).connectCalls = 1 ∧
    (sendMessage freshState "T" "s" 120 handshakeWire).sent =
      (connect freshState handshakeWire).sent ++ [OutMsg.queryMsg "T" false []] ∧
    (sendMessage { model_name := "m", websocket := false, connected := true, inited := false }
        "T" "s" 120 []).out = .err (.attributeError "send") :=
  ⟨sendMessage_lazy_connect.1 readyState "T" "s" 120 [(0, evComplete)] rfl rfl,
   sendMessage_lazy_connect.2.1 freshState "T" "s" 120 handshakeWire (Or.inl rfl),
   (sendMessage_lazy_connect.2.2.1 freshState "T" "s" 120 handshakeWire rfl (by decide)).2.2,
   (sendMessage_lazy_connect.2.2.2 _ "T" "s" 120 [] rfl rfl rfl).1⟩

/-- C9: `session_id` influences neither the wire protocol nor the result:
two `send_message` calls on the same state, message text, timeout and
inbound stream that differ only in `session_id` agree on outcome, final
state, outbound messages, remaining stream and connect count (`session_id`
reaches only the correlation log line); and the outbound query event is
exactly `{type: "query", content: {text, resume: false, files: []}}`,
independent of `session_id`. -/
theorem sendMessage_session_id_independent :
    (∀ (st : ClientState) (m sid1 sid2 : String) (tmo : Nat) (evs : Wire),
      (sendMessage st m sid1 tmo evs).out = (sendMessage st m sid2 tmo evs).out ∧
      (sendMessage st m sid1 tmo evs).st = (sendMessage st m sid2 tmo evs).st ∧
      (sendMessage st m sid1 tmo evs).sent = (sendMessage st m sid2 tmo evs).sent ∧
      (sendMessage st m sid1 tmo evs).rest = (sendMessage st m sid2 tmo evs).rest ∧
      (sendMessage st m sid1 tmo evs).connectCalls =
        (sendMessage st m sid2 tmo evs).connectCalls) ∧
    (∀ (st : ClientState) (m sid : String) (tmo : Nat) (evs : Wire),
      st.connected = true → st.inited = true → st.websocket = true →
      (sendMessage st m sid tmo evs).sent = [OutMsg.queryMsg m false []]) := by
  constructor
  · intro st m sid1 sid2 tmo evs
    by_cases hcond : (!st.connected || !st.inited) = true
    · simp only [sendMessage, if_pos hcond]
      rcases hr : (connect st evs).out with v | e | _
      · by_cases hw : (connect st evs).st.websocket = false <;> simp [hr, sendQuery, hw]
      · simp [hr]
      · simp [hr]
    · simp only [sendMessage, if_neg hcond]
      by_cases hw : st.websocket = false <;> simp [sendQuery, hw]
  · intro st m sid tmo evs hc hi hw
    exact (sendMessage_ready st m sid tmo evs hc hi hw).2.1

/-- Witness for C9: two different session ids on a ready session. -/
theorem sendMessage_session_id_independent_witness :
    (sendMessage readyState "Test" "user123" 120 [(0, evComplete)]).out =
      (sendMessage readyState "Test" "chat-42" 120 [(0, evComplete)]).out ∧
    (sendMessage readyState "Test" "user123" 120 [(0, evComplete)]).sent =
      [OutMsg.queryMsg "Test" false []] :=
  ⟨(sendMessage_session_id_independent.1 readyState "Test" "user123" "chat-42" 120
      [(0, evComplete)]).1,
   sendMessage_session_id_independent.2 readyState "Test" "user123" 120 [(0, evComplete)]
      rfl rfl rfl⟩
